import Mathlib

/-!
Verification development for the batch lightmap baker (src/lightmap_baker.py).

The script drives Blender's node system.  We embed the parts of the host
state that the script reads and mutates: per-material shader graphs
(nodes, links, custom properties), objects with their material lists, and
the scene-wide render configuration.  Python functions of the script are
translated into pure Lean functions that thread this state explicitly.

Host (bpy) semantics assumed by the source and encoded here:
  - a node's custom-property store behaves like a dictionary whose get
    returns None for a missing key;
  - creating a link into an input socket replaces any existing link into
    that socket (shader input sockets accept a single link);
  - the Surface input of a material-output node is its input socket 0;
  - nodes.new(ident) creates a node whose short type tag corresponds to
    the creation identifier (documented in the script's NodeTypes
    dataclass) with a host-chosen default name;
  - viewport selection (Utils.select_object) and message reporting only
    touch host UI state, which no claim mentions, so they are omitted
    from the state.
-/

/-- Python values stored in node custom properties ("Any").  Only None and
True are ever stored by the script, but the search machinery compares
arbitrary stored values with the criteria value using Python equality. -/
inductive PyVal where
  | vnone : PyVal
  | vbool : Bool → PyVal
  | vint : Int → PyVal
  | vstr : String → PyVal
  deriving DecidableEq, Repr, Inhabited

/-- A shader node: stable id, short type tag (e.g. "OUTPUT_MATERIAL"),
mutable name, custom-property store, and the image bound to an image
texture node (by image name). -/
structure Node where
  id : Nat
  type : String
  name : String
  props : List (String × PyVal) := []
  image : Option String := none
  deriving DecidableEq, Repr, Inhabited

/-- A link from (fromNode, fromSocket) to (toNode, toSocket); nodes are
referenced by id, sockets by index. -/
structure Link where
  fromNode : Nat
  fromSocket : Nat
  toNode : Nat
  toSocket : Nat
  deriving DecidableEq, Repr, Inhabited

/-- A material's node tree plus the material-level flags the script
touches.  fresh is the id supplied to the next created node; active
is the id of the node marked active for baking. -/
structure Material where
  name : String := ""
  use_nodes : Bool := true
  nodes : List Node := []
  links : List Link := []
  fresh : Nat := 1000
  active : Option Nat := none
  deriving DecidableEq, Repr, Inhabited

/-- A scene object: name, object type tag ("MESH" for meshes), whether a
UV layer exists, and its ordered material slots. -/
structure Obj where
  name : String
  type : String := "MESH"
  hasUV : Bool := true
  materials : List Material := []
  deriving DecidableEq, Repr, Inhabited

/-- An image data-block (bpy.data.images entry). -/
structure Image where
  name : String
  width : Nat
  height : Nat
  deriving DecidableEq, Repr, Inhabited

/-- The scene-wide state the script reads and mutates: the object and
image collections, the render engine and Cycles sample count, the bake
options, and the files written by img.save(). -/
structure Scene where
  objects : List Obj := []
  images : List Image := []
  engine : String := "BLENDER_EEVEE_NEXT"
  samples : Nat := 0
  bake_use_clear : Bool := false
  bake_margin : Nat := 0
  bake_target : String := ""
  bake_use_selected_to_active : Bool := true
  savedFiles : List String := []
  deriving DecidableEq, Repr, Inhabited

/-- The UI property group BakeSettings (defaults from the source). -/
structure BakeSettings where
  object_names : String := "Floor, Ceiling"
  bake_type : String := "COMBINED"
  image_size : Nat := 1024
  samples : Nat := 1024
  margin : Nat := 16
  output_dir : String := "baked_textures"
  deriving DecidableEq, Repr, Inhabited

/-- Outcomes of the external collaborator calls made by
bake_object_light: directory creation, UV smart-project, the bake
operator, and img.save(). -/
structure ExtOutcome where
  mkdirOk : Bool := true
  uvOk : Bool := true
  bakeOk : Bool := true
  saveOk : Bool := true
  deriving DecidableEq, Repr, Inhabited

/-- NODE_BAKE_IMAGE_NAME from the source. -/
def NODE_BAKE_IMAGE_NAME : String := "BakeImage"

/-- The custom-property key used as the backup marker. -/
def markerKey : String := "originally_connected_to_output_surface"

/-- dict.get with Python's None default: node.get(key). -/
def pyGet (n : Node) (k : String) : PyVal :=
  match n.props.find? (fun p => p.1 == k) with
  | some p => p.2
  | none => PyVal.vnone

/-- node[key] = value (insert or overwrite). -/
def pySet (n : Node) (k : String) (v : PyVal) : Node :=
  { n with props := (k, v) :: n.props.filter (fun p => p.1 != k) }

/-- Python truthiness of an Optional[str]: None and "" are falsy. -/
def truthyStr : Option String → Bool
  | none => false
  | some s => !s.isEmpty

/-- SearchNodeData with the source's field defaults. -/
structure SearchNodeData where
  type : Option String := none
  name : Option String := none
  custom_property : Option String := none
  custom_property_value : PyVal := PyVal.vbool true
  custom_property_not_found_fallback_type : Option String := none
  socket_index : Nat := 0
  create_if_not_found : Bool := false
  create_type : Option String := none
  create_name : Option String := none
  deriving DecidableEq, Repr, Inhabited

/-- SearchNodeData.post_init: the fail-fast validation run by the
dataclass constructor, returning the instance unchanged when it passes. -/
def post_init (c : SearchNodeData) : Except String SearchNodeData :=
  if !(truthyStr c.type || truthyStr c.name || truthyStr c.custom_property) then
    Except.error "At least one of type, name or custom_property must be specified"
  else if c.create_if_not_found && !(truthyStr c.create_type) then
    Except.error "create_if_not_found is set but no create_type specified"
  else Except.ok c

/-- The two invariants post_init enforces, as one boolean. -/
def snd_invariant (c : SearchNodeData) : Bool :=
  (truthyStr c.type || truthyStr c.name || truthyStr c.custom_property) &&
  (!c.create_if_not_found || truthyStr c.create_type)

/-- The per-node disjunction tested by the search loop of
Utils.find_node: each condition of the any(...) tuple is the Python
conjunction of the criteria field's truthiness with the comparison. -/
def node_matches (c : SearchNodeData) (n : Node) : Bool :=
  (match c.type with
   | some t => !t.isEmpty && n.type == t
   | none => false) ||
  (match c.name with
   | some nm => !nm.isEmpty && n.name == nm
   | none => false) ||
  (match c.custom_property with
   | some p => !p.isEmpty && pyGet n p == c.custom_property_value
   | none => false)

/-- Short type tag of a node created from a creation identifier
(the NodeTypes dataclass documents this correspondence). -/
def shortTypeOf : String → String
  | "ShaderNodeOutputMaterial" => "OUTPUT_MATERIAL"
  | "ShaderNodeBsdfPrincipled" => "BSDF_PRINCIPLED"
  | "ShaderNodeTexImage" => "TEX_IMAGE"
  | s => s

/-- Host-chosen default name of a node created from a creation
identifier. -/
def defaultNodeName : String → String
  | "ShaderNodeOutputMaterial" => "Material Output"
  | "ShaderNodeBsdfPrincipled" => "Principled BSDF"
  | "ShaderNodeTexImage" => "Image Texture"
  | s => s

/-- Utils.find_node.  Returns the found (or created) node together with
the possibly-mutated material (creation appends a node).  The source's
recursive fallback call constructs SearchNodeData(type=fallback), whose
search loop is inlined here: that inner criteria has no custom property
and no creation request, so the recursion is exactly one type-only scan
over the same collection. -/
def find_node (m : Material) (c : SearchNodeData) : Option Node × Material :=
  if m.nodes.isEmpty then (none, m)
  else
    match m.nodes.find? (node_matches c) with
    | some n => (some n, m)
    | none =>
      if truthyStr c.custom_property && truthyStr c.custom_property_not_found_fallback_type then
        (m.nodes.find? (node_matches { type := c.custom_property_not_found_fallback_type }), m)
      else if c.create_if_not_found then
        let base : Node :=
          { id := m.fresh,
            type := shortTypeOf (c.create_type.getD ""),
            name := defaultNodeName (c.create_type.getD "") }
        let nd := if truthyStr c.create_name then { base with name := c.create_name.getD "" } else base
        (some nd, { m with nodes := m.nodes ++ [nd], fresh := m.fresh + 1 })
      else (none, m)

/-- links.new(a.outputs[fs], b.inputs[ts]): replaces any existing link
into the destination input socket (single-link input sockets). -/
def links_new (m : Material) (f fs t ts : Nat) : Material :=
  { m with links := Link.mk f fs t ts :: m.links.filter (fun l => !(l.toNode == t && l.toSocket == ts)) }

/-- One iteration of Utils.connect_nodes' material loop: enable nodes,
search node_a then node_b (both searches run, so node_b creation happens
even when node_a is missing), then link on success. -/
def connect_step (m0 : Material) (a b : SearchNodeData) : Bool × Material :=
  let m1 : Material := { m0 with use_nodes := true }
  let r1 := find_node m1 a
  let r2 := find_node r1.2 b
  match r1.1, r2.1 with
  | some x, some y => (true, links_new r2.2 x.id a.socket_index y.id b.socket_index)
  | _, _ => (false, r2.2)

/-- Utils.connect_nodes' loop over the object's materials: stops at the
first failing material, leaving later materials untouched. -/
def connectMats : List Material → SearchNodeData → SearchNodeData → Bool × List Material
  | [], _, _ => (true, [])
  | m :: rest, a, b =>
    if (connect_step m a b).1 then
      ((connectMats rest a b).1, (connect_step m a b).2 :: (connectMats rest a b).2)
    else
      (false, (connect_step m a b).2 :: rest)

/-- Utils.connect_nodes. -/
def connect_nodes (obj : Obj) (a b : SearchNodeData) : Bool × Obj :=
  let r := connectMats obj.materials a b
  (r.1, { obj with materials := r.2 })

/-- Criteria used by switch_object_to_real_shading for node_a. -/
def real_node_a_data : SearchNodeData :=
  { custom_property := some markerKey,
    custom_property_value := PyVal.vbool true,
    custom_property_not_found_fallback_type := some "BSDF_PRINCIPLED" }

/-- Criteria used by both switches for node_b (material output,
created when absent). -/
def output_node_b_data : SearchNodeData :=
  { type := some "OUTPUT_MATERIAL",
    create_if_not_found := true,
    create_type := some "ShaderNodeOutputMaterial" }

/-- Criteria used by switch_object_to_baked_shading for node_a. -/
def baked_node_a_data : SearchNodeData :=
  { name := some NODE_BAKE_IMAGE_NAME }

/-- Criteria used by the marker-clearing loop. -/
def clear_marker_data : SearchNodeData :=
  { custom_property := some markerKey,
    custom_property_value := PyVal.vbool true }

/-- A node currently carrying the backup marker with value True. -/
def marked_node (n : Node) : Bool :=
  pyGet n markerKey == PyVal.vbool true

/-- original_node["originally_connected_to_output_surface"] = True,
applied to the node with the given id. -/
def markIf (tid : Nat) (n : Node) : Node :=
  if n.id == tid then pySet n markerKey (PyVal.vbool true) else n

/-- connected_to_output_surface_node["..."] = None, applied to the node
with the given id. -/
def clearIf (tid : Nat) (n : Node) : Node :=
  if n.id == tid then pySet n markerKey PyVal.vnone else n

/-- The marker-storing loop body of switch_object_to_baked_shading: find
the first material-output node; if its Surface input (socket 0) has a
link, set the marker on the link's source node. -/
def store_original_marker (m : Material) : Material :=
  match (find_node m { type := some "OUTPUT_MATERIAL" }).1 with
  | some out =>
    match (m.links.filter (fun l => l.toNode == out.id && l.toSocket == 0)).head? with
    | some l => { m with nodes := m.nodes.map (markIf l.fromNode) }
    | none => m
  | none => m

/-- The marker-clearing loop body of switch_object_to_real_shading: find
the first node still carrying the marker and set the property to None. -/
def clear_marker (m : Material) : Material :=
  match (find_node m clear_marker_data).1 with
  | some found => { m with nodes := m.nodes.map (clearIf found.id) }
  | none => m

/-- ShadingManager.switch_object_to_real_shading, on a resolved object.
Skips non-meshes and material-less objects; on connect failure the
partially rewired materials are kept and the markers are not cleared. -/
def switch_real_obj (obj : Obj) : Obj :=
  if !(obj.type == "MESH") then obj
  else if obj.materials.isEmpty then obj
  else
    let r := connect_nodes obj real_node_a_data output_node_b_data
    if !r.1 then r.2
    else { r.2 with materials := r.2.materials.map clear_marker }

/-- ShadingManager.switch_object_to_baked_shading, on a resolved object.
The marker snapshot runs over all materials before any rewiring; the
connect result is kept whether or not it succeeded. -/
def switch_baked_obj (obj : Obj) : Obj :=
  if !(obj.type == "MESH") then obj
  else if obj.materials.isEmpty then obj
  else
    let pre : Obj := { obj with materials := obj.materials.map store_original_marker }
    (connect_nodes pre baked_node_a_data output_node_b_data).2

/-- bpy.data.objects.get(name). -/
def scene_get_object (s : Scene) (name : String) : Option Obj :=
  s.objects.find? (fun o => o.name == name)

/-- Utils.is_valid_mesh on the result of an object lookup. -/
def is_valid_mesh : Option Obj → Bool
  | none => false
  | some o => o.type == "MESH"

/-- Write back a mutated object (object names are unique in bpy.data). -/
def scene_upd_object (s : Scene) (o : Obj) : Scene :=
  { s with objects := s.objects.map (fun p => if p.name == o.name then o else p) }

/-- ShadingManager.switch_object_to_real_shading by name (the lookup and
validity check; a missing object only produces a warning). -/
def switch_object_to_real_shading (s : Scene) (name : String) : Scene :=
  match scene_get_object s name with
  | none => s
  | some o => scene_upd_object s (switch_real_obj o)

/-- ShadingManager.switch_object_to_baked_shading by name. -/
def switch_object_to_baked_shading (s : Scene) (name : String) : Scene :=
  match scene_get_object s name with
  | none => s
  | some o => scene_upd_object s (switch_baked_obj o)

/-- nodes.remove(n): removing a node also drops its links. -/
def remove_node (m : Material) (nid : Nat) : Material :=
  { m with nodes := m.nodes.filter (fun n => n.id != nid),
           links := m.links.filter (fun l => !(l.fromNode == nid) && !(l.toNode == nid)) }

/-- The bake-node loop body of bake_object_light: enable nodes, remove
the first node named BakeImage, create a fresh image texture node named
BakeImage bound to the bake image, and make it the active node. -/
def prepare_bake_node (img : String) (m0 : Material) : Material :=
  let m1 : Material := { m0 with use_nodes := true }
  let m2 :=
    match m1.nodes.find? (fun n => n.name == NODE_BAKE_IMAGE_NAME) with
    | some n => remove_node m1 n.id
    | none => m1
  let nd : Node := { id := m2.fresh, type := "TEX_IMAGE", name := NODE_BAKE_IMAGE_NAME, image := some img }
  { m2 with nodes := m2.nodes ++ [nd], fresh := m2.fresh + 1, active := some nd.id }

/-- bpy.data.materials.new: a fresh material starts with nodes disabled
and an empty tree. -/
def new_baking_material (nm : String) : Material :=
  { name := nm, use_nodes := false, nodes := [], links := [], fresh := 0, active := none }

/-- BakeSettings.get_object_names: the Python list comprehension
[name.strip() for name in self.object_names.split(",") if name.strip()]. -/
def get_object_names (st : BakeSettings) : List String :=
  (st.object_names.splitOn ",").filterMap (fun n => if n.trim.isEmpty then none else some n.trim)

/-- Everything bake_object_light does after the render engine and sample
count have been applied: resolve and validate the object, ensure a UV
map, obtain or create the bake image, ensure a material, switch to real
shading, install bake nodes, set the bake options, bake, switch to baked
shading, and save the image. -/
def bake_after_settings (s : Scene) (name : String) (st : BakeSettings) (ext : ExtOutcome) : Scene :=
  match scene_get_object s name with
  | none => s
  | some obj =>
    if !(obj.type == "MESH") then s
    else if !obj.hasUV && !ext.uvOk then s
    else
      let obj1 : Obj := if obj.hasUV then obj else { obj with hasUV := true }
      let s1 := scene_upd_object s obj1
      let imgName := obj1.name ++ "_Baked"
      let s2 := if (s1.images.find? (fun im => im.name == imgName)).isSome then s1
                else { s1 with images := s1.images ++ [Image.mk imgName st.image_size st.image_size] }
      let obj2 : Obj :=
        if obj1.materials.isEmpty then
          { obj1 with materials := [new_baking_material (obj1.name ++ "_BakingMat")] }
        else obj1
      let s3 := scene_upd_object s2 obj2
      let s4 := switch_object_to_real_shading s3 obj2.name
      let obj3 := (scene_get_object s4 obj2.name).getD obj2
      let obj4 : Obj := { obj3 with materials := obj3.materials.map (prepare_bake_node imgName) }
      let s5 := scene_upd_object s4 obj4
      let s6 : Scene :=
        { s5 with bake_use_clear := true, bake_margin := st.margin,
                  bake_target := "IMAGE_TEXTURES", bake_use_selected_to_active := false }
      if !ext.bakeOk then s6
      else
        let s7 := switch_object_to_baked_shading s6 obj4.name
        if ext.saveOk then { s7 with savedFiles := s7.savedFiles ++ [st.output_dir ++ "/" ++ imgName ++ ".png"] }
        else s7

/-- ShadingManager.bake_object_light: ensure the output directory (a
failure returns before any scene mutation), then set the render engine
to CYCLES and the Cycles sample count, then run the rest of the
pipeline. -/
def bake_object_light (s : Scene) (name : String) (st : BakeSettings) (ext : ExtOutcome) : Scene :=
  if !ext.mkdirOk then s
  else bake_after_settings { s with engine := "CYCLES", samples := st.samples } name st ext

/-- The first material-output node of a material, in node order. -/
def first_output (m : Material) : Option Node :=
  m.nodes.find? (fun n => n.type == "OUTPUT_MATERIAL")

/-- The link currently feeding the Surface input (socket 0) of the
material's first material-output node. -/
def surface_link (m : Material) : Option Link :=
  match first_output m with
  | some out => (m.links.filter (fun l => l.toNode == out.id && l.toSocket == 0)).head?
  | none => none

/-! ## Concrete example data used by witnesses and counterexamples -/

/-- A material-output node. -/
def exOut : Node := { id := 0, type := "OUTPUT_MATERIAL", name := "Material Output" }

/-- A principled shader node. -/
def exShader : Node := { id := 1, type := "BSDF_PRINCIPLED", name := "Principled BSDF" }

/-- A bake-image texture node carrying the reserved name. -/
def exBake : Node := { id := 2, type := "TEX_IMAGE", name := "BakeImage" }

/-- C1 counterexample material: the shader feeds the output's Surface
input from its output socket 1. -/
def c1Mat : Material :=
  { name := "C1M", nodes := [exShader, exBake, exOut], links := [Link.mk 1 1 0 0], fresh := 50 }

/-- C1 counterexample object. -/
def c1Obj : Obj := { name := "C1O", materials := [c1Mat] }

/-- C1 witness material: the shader feeds the output's Surface input
from its output socket 0. -/
def c1wMat : Material :=
  { name := "C1WM", nodes := [exShader, exBake, exOut], links := [Link.mk 1 0 0 0], fresh := 50 }

/-- C1 witness object. -/
def c1wObj : Obj := { name := "C1WO", materials := [c1wMat] }

/-- C2 counterexample material: the bake-image node precedes the shader
in node order. -/
def c2Mat : Material :=
  { name := "C2M", nodes := [exBake, exShader, exOut], links := [Link.mk 1 0 0 0], fresh := 60 }

/-- C2 counterexample object. -/
def c2Obj : Obj := { name := "C2O", materials := [c2Mat] }

/-- C2 witness material: the shader precedes the bake-image node. -/
def c2wMat : Material :=
  { name := "C2WM", nodes := [exShader, exBake, exOut], links := [Link.mk 1 0 0 0], fresh := 60 }

/-- C2 witness object. -/
def c2wObj : Obj := { name := "C2WO", materials := [c2wMat] }

/-- C3 witness: a material in which both searched nodes exist. -/
def c3OkMat : Material :=
  { name := "C3OK", nodes := [exShader, exBake, exOut], links := [], fresh := 70 }

/-- C3 witness: a material with no bake-image node, so a by-name search
for it fails. -/
def c3BadMat : Material :=
  { name := "C3BAD", nodes := [exShader, exOut], links := [], fresh := 70 }

/-- C3 witness object: the failing material sits between two good ones. -/
def c3Obj : Obj := { name := "C3O", materials := [c3OkMat, c3BadMat, c3OkMat] }

/-- C4 witness material: two image-texture nodes; the search must return
the first. -/
def c4Mat : Material :=
  { name := "C4M",
    nodes := [exShader, { id := 5, type := "TEX_IMAGE", name := "TexA" },
              { id := 6, type := "TEX_IMAGE", name := "TexB" }],
    links := [], fresh := 80 }

/-- C4 witness criteria: search by type only. -/
def c4Crit : SearchNodeData := { type := some "TEX_IMAGE" }

/-- C4 witness criteria with a type matching nothing. -/
def c4MissCrit : SearchNodeData := { type := some "OUTPUT_MATERIAL" }

/-- C6 witness: a criteria violating the first invariant (no search
field set). -/
def c6Bad : SearchNodeData := { socket_index := 3 }

/-- C5 counterexample criteria: custom-property search with a fallback
type, plus a creation request. -/
def c5Crit : SearchNodeData :=
  { custom_property := some "p",
    custom_property_not_found_fallback_type := some "BSDF_PRINCIPLED",
    create_if_not_found := true,
    create_type := some "ShaderNodeTexImage" }

/-- C5 counterexample material: non-empty, no property match and no
fallback-type match. -/
def c5Mat : Material :=
  { name := "C5M", nodes := [{ id := 9, type := "X", name := "x" }], links := [], fresh := 20 }

/-- C5 witness criteria: creation request without a fallback chain. -/
def c5wCrit : SearchNodeData :=
  { type := some "OUTPUT_MATERIAL",
    create_if_not_found := true,
    create_type := some "ShaderNodeOutputMaterial" }

/-- C5 witness material: non-empty, nothing matches the search. -/
def c5wMat : Material :=
  { name := "C5WM", nodes := [{ id := 9, type := "X", name := "x" }], links := [], fresh := 20 }

/-- C9 witness material: an empty node collection. -/
def c9Mat : Material := { name := "C9M", nodes := [], links := [], fresh := 0 }

/-- C7 counterexample: two distinct nodes both carry the backup marker. -/
def c7MatTwo : Material :=
  { name := "C7M",
    nodes := [{ id := 1, type := "BSDF_PRINCIPLED", name := "A", props := [(markerKey, PyVal.vbool true)] },
              { id := 2, type := "TEX_IMAGE", name := "B", props := [(markerKey, PyVal.vbool true)] },
              exOut],
    links := [], fresh := 90 }

/-- C7 counterexample object. -/
def c7Obj : Obj := { name := "C7O", materials := [c7MatTwo] }

/-- C7 witness: exactly one node carries the backup marker. -/
def c7wMat : Material :=
  { name := "C7WM",
    nodes := [{ id := 1, type := "BSDF_PRINCIPLED", name := "A", props := [(markerKey, PyVal.vbool true)] },
              { id := 2, type := "TEX_IMAGE", name := "B" },
              exOut],
    links := [], fresh := 90 }

/-- C7 witness object. -/
def c7wObj : Obj := { name := "C7WO", materials := [c7wMat] }

/-- C10 witness scene: the named object does not exist. -/
def c10Scene : Scene := { objects := [] }

/-! ## General list helpers -/

theorem find?_congr_on {α : Type} (l : List α) (p q : α → Bool)
    (h : ∀ x ∈ l, p x = q x) : l.find? p = l.find? q := by
  induction l with
  | nil => rfl
  | cons a t ih =>
    have ha : p a = q a := h a (by simp)
    cases hq : q a with
    | true => simp [List.find?_cons, ha, hq]
    | false =>
      simp only [List.find?_cons, ha, hq]
      exact ih (fun x hx => h x (by simp [hx]))

theorem find?_eq_getElem {α : Type} (l : List α) (p : α → Bool) (i : Nat) (hi : i < l.length)
    (hp : p (l[i]) = true) (hbefore : ∀ j (hj : j < l.length), j < i → p (l[j]) = false) :
    l.find? p = some (l[i]) := by
  induction l generalizing i with
  | nil => simp at hi
  | cons a t ih =>
    cases i with
    | zero =>
      simp only [List.getElem_cons_zero] at hp
      simp [List.find?_cons, hp]
    | succ k =>
      have h0 : p a = false := by
        have := hbefore 0 (by simp) (Nat.succ_pos k)
        simpa using this
      simp only [List.find?_cons, h0, List.getElem_cons_succ]
      simp only [List.length_cons, Nat.succ_lt_succ_iff] at hi
      apply ih k hi
      · simpa using hp
      · intro j hj hjk
        have := hbefore (j + 1) (by simpa using Nat.succ_lt_succ hj) (Nat.succ_lt_succ hjk)
        simpa using this

theorem eq_of_mem_length_le_one {α : Type} {l : List α} (h : l.length ≤ 1)
    {a b : α} (ha : a ∈ l) (hb : b ∈ l) : a = b := by
  match l with
  | [] => simp at ha
  | [x] =>
    simp only [List.mem_singleton] at ha hb
    rw [ha, hb]
  | x :: y :: t => simp at h

/-! ## Property-store helpers -/

theorem pyGet_pySet_same (n : Node) (k : String) (v : PyVal) : pyGet (pySet n k v) k = v := by
  simp [pyGet, pySet]

theorem pySet_id (n : Node) (k : String) (v : PyVal) : (pySet n k v).id = n.id := rfl

theorem pySet_type (n : Node) (k : String) (v : PyVal) : (pySet n k v).type = n.type := rfl

theorem pySet_name (n : Node) (k : String) (v : PyVal) : (pySet n k v).name = n.name := rfl

theorem markIf_id (t : Nat) (n : Node) : (markIf t n).id = n.id := by
  unfold markIf; split <;> rfl

theorem markIf_type (t : Nat) (n : Node) : (markIf t n).type = n.type := by
  unfold markIf; split <;> rfl

theorem markIf_name (t : Nat) (n : Node) : (markIf t n).name = n.name := by
  unfold markIf; split <;> rfl

theorem clearIf_id (t : Nat) (n : Node) : (clearIf t n).id = n.id := by
  unfold clearIf; split <;> rfl

theorem clearIf_type (t : Nat) (n : Node) : (clearIf t n).type = n.type := by
  unfold clearIf; split <;> rfl

theorem marked_markIf (t : Nat) (n : Node) :
    marked_node (markIf t n) = (n.id == t || marked_node n) := by
  unfold markIf
  cases h : n.id == t with
  | true => simp [h, marked_node, pyGet_pySet_same]
  | false => simp [h]

theorem marked_clearIf (t : Nat) (n : Node) :
    marked_node (clearIf t n) = (!(n.id == t) && marked_node n) := by
  unfold clearIf
  cases h : n.id == t with
  | true => simp [h, marked_node, pyGet_pySet_same]
  | false => simp [h]

/-! ## Matcher reductions for the concrete criteria -/

theorem node_matches_output_b (n : Node) :
    node_matches output_node_b_data n = (n.type == "OUTPUT_MATERIAL") := by
  simp [node_matches, output_node_b_data]
  intro _; decide

theorem node_matches_output_type (n : Node) :
    node_matches { type := some "OUTPUT_MATERIAL" } n = (n.type == "OUTPUT_MATERIAL") := by
  simp [node_matches]
  intro _; decide

theorem node_matches_baked_a (n : Node) :
    node_matches baked_node_a_data n = (n.name == "BakeImage") := by
  simp [node_matches, baked_node_a_data, NODE_BAKE_IMAGE_NAME]
  intro _; decide

theorem node_matches_real_a (n : Node) :
    node_matches real_node_a_data n = marked_node n := by
  simp [node_matches, real_node_a_data, marked_node, markerKey]
  intro _; decide

theorem node_matches_clear (n : Node) :
    node_matches clear_marker_data n = marked_node n := by
  simp [node_matches, clear_marker_data, marked_node, markerKey]
  intro _; decide

/-! ## find_node structural lemmas -/

theorem find_node_found (m : Material) (c : SearchNodeData) (n : Node)
    (h : m.nodes.find? (node_matches c) = some n) : find_node m c = (some n, m) := by
  have hne : m.nodes.isEmpty = false := by
    cases hn : m.nodes with
    | nil => rw [hn] at h; simp at h
    | cons a t => simp [hn]
  unfold find_node
  rw [hne, h]
  simp

theorem find_node_no_create (m : Material) (c : SearchNodeData)
    (hc : c.create_if_not_found = false) : (find_node m c).2 = m := by
  unfold find_node
  split
  · rfl
  · split
    · rfl
    · split
      · rfl
      · rw [hc]
        simp

/-! ## connectMats structural lemmas -/

theorem connectMats_length (mats : List Material) (a b : SearchNodeData) :
    ((connectMats mats a b).2).length = mats.length := by
  induction mats with
  | nil => rfl
  | cons m rest ih =>
    unfold connectMats
    split
    · simpa using ih
    · simp

theorem connectMats_getElem_cases (mats : List Material) (a b : SearchNodeData)
    (i : Nat) (hi : i < mats.length) (hi2 : i < ((connectMats mats a b).2).length) :
    ((connectMats mats a b).2)[i] = (connect_step (mats[i]) a b).2 ∨
    ((connectMats mats a b).2)[i] = mats[i] := by
  induction mats generalizing i with
  | nil => simp at hi
  | cons m rest ih =>
    unfold connectMats
    split
    · cases i with
      | zero => left; simp
      | succ k =>
        have hk : k < rest.length := by simpa using hi
        have hk2 : k < ((connectMats rest a b).2).length := by
          rw [connectMats_length]; exact hk
        have := ih k hk hk2
        simpa using this
    · cases i with
      | zero => left; simp
      | succ k => right; simp

theorem connectMats_of_all_true (mats : List Material) (a b : SearchNodeData)
    (h : ∀ m ∈ mats, (connect_step m a b).1 = true) :
    connectMats mats a b = (true, mats.map (fun m => (connect_step m a b).2)) := by
  induction mats with
  | nil => rfl
  | cons m rest ih =>
    have hm : (connect_step m a b).1 = true := h m (by simp)
    unfold connectMats
    rw [ih (fun x hx => h x (by simp [hx]))]
    simp [hm]

theorem connectMats_true_map (mats : List Material) (a b : SearchNodeData)
    (h : (connectMats mats a b).1 = true) :
    (connectMats mats a b).2 = mats.map (fun m => (connect_step m a b).2) := by
  induction mats with
  | nil => rfl
  | cons m rest ih =>
    unfold connectMats at h ⊢
    by_cases hm : (connect_step m a b).1 = true
    · simp only [hm, if_true] at h ⊢
      simp [ih h]
    · simp only [Bool.not_eq_true] at hm
      simp [hm] at h

/-! ## Scene-field preservation lemmas -/

theorem scene_upd_object_engine (s : Scene) (o : Obj) : (scene_upd_object s o).engine = s.engine := rfl

theorem scene_upd_object_samples (s : Scene) (o : Obj) : (scene_upd_object s o).samples = s.samples := rfl

theorem switch_real_engine (s : Scene) (n : String) :
    (switch_object_to_real_shading s n).engine = s.engine := by
  unfold switch_object_to_real_shading
  split <;> rfl

theorem switch_real_samples (s : Scene) (n : String) :
    (switch_object_to_real_shading s n).samples = s.samples := by
  unfold switch_object_to_real_shading
  split <;> rfl

theorem switch_baked_engine (s : Scene) (n : String) :
    (switch_object_to_baked_shading s n).engine = s.engine := by
  unfold switch_object_to_baked_shading
  split <;> rfl

theorem switch_baked_samples (s : Scene) (n : String) :
    (switch_object_to_baked_shading s n).samples = s.samples := by
  unfold switch_object_to_baked_shading
  split <;> rfl

theorem bake_after_settings_engine_samples (s : Scene) (name : String) (st : BakeSettings) (ext : ExtOutcome) :
    (bake_after_settings s name st ext).engine = s.engine ∧
    (bake_after_settings s name st ext).samples = s.samples := by
  unfold bake_after_settings
  refine ⟨?_, ?_⟩ <;>
    (split
     · rfl
     split
     · rfl
     split
     · rfl
     repeat' split
     all_goals
       simp [apply_ite Scene.engine, apply_ite Scene.samples,
             switch_real_engine, switch_baked_engine, scene_upd_object_engine,
             switch_real_samples, switch_baked_samples, scene_upd_object_samples])

/-! ## Claim theorems -/

/-- C10: every bake_object_light call whose output-directory step
succeeds sets the scene's render engine to CYCLES and the global Cycles
sample count to settings.samples before the named object is validated,
so the mutation persists even when the object is missing or not a
mesh (no hypothesis about the object is needed). -/
theorem c10_engine_samples_set (s : Scene) (name : String) (st : BakeSettings) (ext : ExtOutcome)
    (h : ext.mkdirOk = true) :
    (bake_object_light s name st ext).engine = "CYCLES" ∧
    (bake_object_light s name st ext).samples = st.samples := by
  unfold bake_object_light
  rw [h]
  simp only [Bool.not_true, Bool.false_eq_true, if_false]
  refine ⟨?_, ?_⟩
  · rw [(bake_after_settings_engine_samples _ name st ext).1]
  · rw [(bake_after_settings_engine_samples _ name st ext).2]

/-- C10 witness: a scene without the named object still ends with
engine CYCLES and the configured sample count. -/
theorem c10_engine_samples_set_witness :
    (bake_object_light c10Scene "Missing" {} {}).engine = "CYCLES" ∧
    (bake_object_light c10Scene "Missing" {} {}).samples = 1024 :=
  c10_engine_samples_set c10Scene "Missing" {} {} rfl

/-- C8: get_object_names splits the configured string on commas, trims
each piece, drops pieces that are empty after trimming, and otherwise
preserves order and duplicates: it equals the map-trim-then-filter
pipeline the spec describes. -/
theorem c8_object_names_split (st : BakeSettings) :
    get_object_names st =
      ((st.object_names.splitOn ",").map String.trim).filter (fun t => !t.isEmpty) := by
  unfold get_object_names
  induction st.object_names.splitOn "," with
  | nil => rfl
  | cons a t ih =>
    cases h : a.trim.isEmpty with
    | true => simpa [List.filterMap_cons, List.filter_cons, h] using ih
    | false => simpa [List.filterMap_cons, List.filter_cons, h] using ih

/-- C9: on an empty node collection find_node returns not-found at once
for every criteria, including creation-requesting or fallback-carrying
ones, and the collection is left unchanged (nothing is created). -/
theorem c9_empty_collection (m : Material) (c : SearchNodeData) (h : m.nodes = []) :
    find_node m c = (none, m) := by
  unfold find_node
  rw [h]
  simp

/-- C9 witness: the empty material with a creation-requesting,
fallback-carrying criteria. -/
theorem c9_empty_collection_witness :
    c9Mat.nodes = [] ∧ find_node c9Mat c5Crit = (none, c9Mat) :=
  ⟨rfl, c9_empty_collection c9Mat c5Crit rfl⟩

/-- C6: SearchNodeData construction validates fail-fast: post_init
returns the instance unchanged exactly when at least one search field
(type, name, custom property) is truthy and a creation request comes
with a truthy create_type; otherwise it raises (returns an error), so
every existing instance satisfies both invariants and the search code
never re-checks them. -/
theorem c6_criteria_validation (c : SearchNodeData) :
    (post_init c = Except.ok c ↔ snd_invariant c = true) ∧
    (snd_invariant c = false → ∃ msg, post_init c = Except.error msg) := by
  unfold post_init snd_invariant
  cases h1 : (truthyStr c.type || truthyStr c.name || truthyStr c.custom_property) with
  | false => simp [h1]
  | true =>
    cases h2 : c.create_if_not_found with
    | false => simp [h1, h2]
    | true =>
      cases h3 : truthyStr c.create_type with
      | false => simp [h1, h2, h3]
      | true => simp [h1, h2, h3]

/-- C6 witness: a criteria with no search field set fails validation
with an error. -/
theorem c6_criteria_validation_witness :
    ∃ msg, post_init c6Bad = Except.error msg :=
  (c6_criteria_validation c6Bad).2 rfl

/-- C4: find_node returns the first node in the collection's native
order satisfying the disjunction of the set criteria fields (unset
fields contribute false to the disjunction); and with only type set,
when no node matches and creation is not requested, it returns
not-found and leaves the collection unchanged. -/
theorem c4_find_first_match :
    (∀ (m : Material) (c : SearchNodeData) (i : Nat) (hi : i < m.nodes.length),
       node_matches c (m.nodes[i]) = true →
       (∀ j (hj : j < m.nodes.length), j < i → node_matches c (m.nodes[j]) = false) →
       find_node m c = (some (m.nodes[i]), m)) ∧
    (∀ (m : Material) (c : SearchNodeData),
       c.name = none → c.custom_property = none → c.create_if_not_found = false →
       (∀ n ∈ m.nodes, node_matches c n = false) →
       find_node m c = (none, m)) := by
  constructor
  · intro m c i hi hp hb
    exact find_node_found m c _ (find?_eq_getElem m.nodes (node_matches c) i hi hp hb)
  · intro m c hn hcp hcr hall
    have hfind : m.nodes.find? (node_matches c) = none :=
      List.find?_eq_none.mpr (fun a ha => by simp [hall a ha])
    unfold find_node
    split
    · rfl
    · rw [hfind]
      simp [hcp, hcr, truthyStr]

/-- C4 witness: a by-type search returns the first of two image-texture
nodes, and a search for a type that is absent returns not-found. -/
theorem c4_find_first_match_witness :
    find_node c4Mat c4Crit = (some { id := 5, type := "TEX_IMAGE", name := "TexA" }, c4Mat) ∧
    find_node c4Mat c4MissCrit = (none, c4Mat) := by
  constructor
  · exact c4_find_first_match.1 c4Mat c4Crit 1 (by decide) (by decide) (by decide)
  · exact c4_find_first_match.2 c4Mat c4MissCrit rfl rfl rfl (by decide)

/-- C5 counterexample: a creation-requesting criteria whose
custom-property search misses and whose fallback-type search also
misses returns not-found on a non-empty collection and creates
nothing, contradicting "never returns not-found". -/
theorem c5_fallback_miss_counterexample :
    c5Crit.create_if_not_found = true ∧
    (∀ n ∈ c5Mat.nodes, node_matches c5Crit n = false) ∧
    find_node c5Mat c5Crit = (none, c5Mat) := by
  refine ⟨rfl, by decide, by decide⟩

/-- C5 (amended): for a non-empty collection and a creation-requesting
criteria, when no node matches the search disjunction and the
custom-property fallback path does not apply, find_node creates a new
node of create_type (renamed to create_name when that is truthy, with
the host default name otherwise), appends it to the collection, and
returns it. -/
theorem c5_create_on_miss (m : Material) (c : SearchNodeData)
    (hne : m.nodes.isEmpty = false)
    (hnomatch : ∀ n ∈ m.nodes, node_matches c n = false)
    (hnofb : (truthyStr c.custom_property && truthyStr c.custom_property_not_found_fallback_type) = false)
    (hcr : c.create_if_not_found = true) :
    ∃ nd : Node,
      find_node m c = (some nd, { m with nodes := m.nodes ++ [nd], fresh := m.fresh + 1 }) ∧
      nd.type = shortTypeOf (c.create_type.getD "") ∧
      nd.id = m.fresh ∧
      (truthyStr c.create_name = true → nd.name = c.create_name.getD "") ∧
      (truthyStr c.create_name = false → nd.name = defaultNodeName (c.create_type.getD "")) := by
  have hfind : m.nodes.find? (node_matches c) = none :=
    List.find?_eq_none.mpr (fun a ha => by simp [hnomatch a ha])
  unfold find_node
  rw [hfind]
  simp only [hne, Bool.false_eq_true, if_false, hnofb, hcr, if_true]
  cases hcn : truthyStr c.create_name with
  | true =>
    refine ⟨{ id := m.fresh, type := shortTypeOf (c.create_type.getD ""),
              name := c.create_name.getD "" }, ?_, rfl, rfl, ?_, ?_⟩
    · simp [hcn]
    · intro _; rfl
    · intro h; exact absurd h (by decide)
  | false =>
    refine ⟨{ id := m.fresh, type := shortTypeOf (c.create_type.getD ""),
              name := defaultNodeName (c.create_type.getD "") }, ?_, rfl, rfl, ?_, ?_⟩
    · simp [hcn]
    · intro h; exact absurd h (by decide)
    · intro _; rfl

/-- C5 witness: a miss with creation requested and no fallback chain
creates and returns the new output node. -/
theorem c5_create_on_miss_witness :
    ∃ nd : Node,
      find_node c5wMat c5wCrit =
        (some nd, { c5wMat with nodes := c5wMat.nodes ++ [nd], fresh := c5wMat.fresh + 1 }) ∧
      nd.type = shortTypeOf (c5wCrit.create_type.getD "") ∧
      nd.id = c5wMat.fresh ∧
      (truthyStr c5wCrit.create_name = true → nd.name = c5wCrit.create_name.getD "") ∧
      (truthyStr c5wCrit.create_name = false → nd.name = defaultNodeName (c5wCrit.create_type.getD "")) :=
  c5_create_on_miss c5wMat c5wCrit rfl (by decide) rfl rfl

theorem connect_step_true_head (m : Material) (a b : SearchNodeData)
    (h : (connect_step m a b).1 = true) :
    ∃ x y : Node, ((connect_step m a b).2).links.head? =
      some (Link.mk x.id a.socket_index y.id b.socket_index) := by
  unfold connect_step at h ⊢
  cases h1 : (find_node { m with use_nodes := true } a).1 with
  | none => simp [h1] at h
  | some x =>
    cases h2 : (find_node (find_node { m with use_nodes := true } a).2 b).1 with
    | none => simp [h1, h2] at h
    | some y =>
      refine ⟨x, y, ?_⟩
      simp [h1, h2, links_new]

theorem connectMats_stops_at_failure (a b : SearchNodeData) (mats : List Material) :
    ∀ (k : Nat) (hk : k < mats.length),
    (connect_step (mats[k]) a b).1 = false →
    (∀ j (hj : j < mats.length), j < k → (connect_step (mats[j]) a b).1 = true) →
    (connectMats mats a b).1 = false ∧
    ((connectMats mats a b).2).length = mats.length ∧
    (∀ j (hj : j < mats.length) (hj2 : j < ((connectMats mats a b).2).length),
       k < j → ((connectMats mats a b).2)[j] = mats[j]) ∧
    (∀ j (hj : j < mats.length) (hj2 : j < ((connectMats mats a b).2).length),
       j < k → ((connectMats mats a b).2)[j] = (connect_step (mats[j]) a b).2) := by
  induction mats with
  | nil => intro k hk; simp at hk
  | cons m rest ih =>
    intro k hk hfail hpre
    cases k with
    | zero =>
      have h0 : (connect_step m a b).1 = false := by simpa using hfail
      unfold connectMats
      simp only [h0, Bool.false_eq_true, if_false]
      refine ⟨by trivial, by simp, ?_, ?_⟩
      · intro j hj hj2 hkj
        cases j with
        | zero => omega
        | succ jj => simp
      · intro j hj hj2 hjk
        omega
    | succ kk =>
      have h0 : (connect_step m a b).1 = true := by
        have := hpre 0 (by simp) (Nat.succ_pos kk)
        simpa using this
      have hk' : kk < rest.length := by simpa using hk
      have hfail' : (connect_step (rest[kk]) a b).1 = false := by simpa using hfail
      have hpre' : ∀ j (hj : j < rest.length), j < kk → (connect_step (rest[j]) a b).1 = true := by
        intro j hj hjk
        have := hpre (j + 1) (by simpa using Nat.succ_lt_succ hj) (Nat.succ_lt_succ hjk)
        simpa using this
      obtain ⟨ih1, ih2, ih3, ih4⟩ := ih kk hk' hfail' hpre'
      unfold connectMats
      simp only [h0, eq_self_iff_true, if_true]
      refine ⟨ih1, by simp [ih2], ?_, ?_⟩
      · intro j hj hj2 hkj
        cases j with
        | zero => omega
        | succ jj =>
          have hjj : jj < rest.length := by simpa using hj
          have hjj2 : jj < ((connectMats rest a b).2).length := by
            rw [connectMats_length]; exact hjj
          have := ih3 jj hjj hjj2 (by omega)
          simpa using this
      · intro j hj hj2 hjk
        cases j with
        | zero => simp
        | succ jj =>
          have hjj : jj < rest.length := by simpa using hj
          have hjj2 : jj < ((connectMats rest a b).2).length := by
            rw [connectMats_length]; exact hjj
          have := ih4 jj hjj hjj2 (by omega)
          simpa using this

/-- C3: when connect_nodes fails to locate one of the two nodes in
material k — connect_step reports false exactly in that case — after
locating both in every earlier material, it returns failure, leaves
every material after k untouched, and keeps every material before k in
its rewired state (no rollback), with the freshly created link at the
head of that material's link list. -/
theorem c3_connect_failure_no_rollback (obj : Obj) (a b : SearchNodeData) (k : Nat)
    (hk : k < obj.materials.length)
    (hfail : (connect_step (obj.materials[k]) a b).1 = false)
    (hpre : ∀ j (hj : j < obj.materials.length), j < k → (connect_step (obj.materials[j]) a b).1 = true) :
    (connect_nodes obj a b).1 = false ∧
    ((connect_nodes obj a b).2).materials.length = obj.materials.length ∧
    (∀ j (hj : j < obj.materials.length) (hj2 : j < ((connect_nodes obj a b).2).materials.length),
       k < j → ((connect_nodes obj a b).2).materials[j] = obj.materials[j]) ∧
    (∀ j (hj : j < obj.materials.length) (hj2 : j < ((connect_nodes obj a b).2).materials.length),
       j < k → ((connect_nodes obj a b).2).materials[j] = (connect_step (obj.materials[j]) a b).2) ∧
    (∀ j (hj : j < obj.materials.length) (hj2 : j < ((connect_nodes obj a b).2).materials.length),
       j < k → ∃ x y : Node, (((connect_nodes obj a b).2).materials[j]).links.head? =
         some (Link.mk x.id a.socket_index y.id b.socket_index)) := by
  obtain ⟨h1, h2, h3, h4⟩ := connectMats_stops_at_failure a b obj.materials k hk hfail hpre
  refine ⟨h1, h2, h3, h4, ?_⟩
  intro j hj hj2 hjk
  have e : ((connect_nodes obj a b).2).materials[j] = (connect_step (obj.materials[j]) a b).2 :=
    h4 j hj hj2 hjk
  rw [e]
  exact connect_step_true_head (obj.materials[j]) a b (hpre j hj hjk)

/-- C3 witness: with the bake-image search failing in the middle
material of three, connect_nodes reports failure, the last material is
untouched, and the first material keeps its new link. -/
theorem c3_connect_failure_no_rollback_witness :
    (connect_nodes c3Obj baked_node_a_data output_node_b_data).1 = false ∧
    ((connect_nodes c3Obj baked_node_a_data output_node_b_data).2).materials.length = 3 :=
  ⟨(c3_connect_failure_no_rollback c3Obj baked_node_a_data output_node_b_data 1
      (by decide) (by decide) (by decide)).1,
   (c3_connect_failure_no_rollback c3Obj baked_node_a_data output_node_b_data 1
      (by decide) (by decide) (by decide)).2.1⟩

theorem props_nil_unmarked (x : Node) (h : x.props = []) : marked_node x = false := by
  simp [marked_node, pyGet, h]

theorem find_node_nodes_suffix (m : Material) (c : SearchNodeData) :
    ∃ tail : List Node, ((find_node m c).2).nodes = m.nodes ++ tail ∧ ∀ x ∈ tail, x.props = [] := by
  unfold find_node
  split
  · exact ⟨[], by simp, by simp⟩
  split
  · exact ⟨[], by simp, by simp⟩
  split
  · exact ⟨[], by simp, by simp⟩
  split
  · cases hcn : truthyStr c.create_name with
    | true =>
      refine ⟨[{ id := m.fresh, type := shortTypeOf (c.create_type.getD ""),
                 name := c.create_name.getD "" }], by simp [hcn], by simp⟩
    | false =>
      refine ⟨[{ id := m.fresh, type := shortTypeOf (c.create_type.getD ""),
                 name := defaultNodeName (c.create_type.getD "") }], by simp [hcn], by simp⟩
  · exact ⟨[], by simp, by simp⟩

theorem connect_step_nodes_suffix (m : Material) (a b : SearchNodeData)
    (ha : a.create_if_not_found = false) :
    ∃ tail : List Node, ((connect_step m a b).2).nodes = m.nodes ++ tail ∧ ∀ x ∈ tail, x.props = [] := by
  have h1 : (find_node { m with use_nodes := true } a).2 = { m with use_nodes := true } :=
    find_node_no_create _ _ ha
  obtain ⟨tail, ht, hp⟩ := find_node_nodes_suffix { m with use_nodes := true } b
  refine ⟨tail, ?_, hp⟩
  unfold connect_step
  simp only [h1]
  cases hx : (find_node { m with use_nodes := true } a).1 with
  | none =>
    cases hy : (find_node { m with use_nodes := true } b).1 with
    | none => simpa [hx, hy] using ht
    | some y => simpa [hx, hy] using ht
  | some x =>
    cases hy : (find_node { m with use_nodes := true } b).1 with
    | none => simpa [hx, hy] using ht
    | some y => simpa [hx, hy, links_new] using ht

theorem find_node_clear_none (m : Material)
    (h : (find_node m clear_marker_data).1 = none) :
    ∀ x ∈ m.nodes, marked_node x = false := by
  intro x hx
  by_contra hmx
  rw [Bool.not_eq_false] at hmx
  have hmatch : node_matches clear_marker_data x = true := by
    rw [node_matches_clear]; exact hmx
  have hnone : m.nodes.find? (node_matches clear_marker_data) ≠ none := by
    rw [Ne, List.find?_eq_none]
    push_neg
    exact ⟨x, hx, by simp [hmatch]⟩
  obtain ⟨y, hy⟩ := Option.ne_none_iff_exists'.mp hnone
  rw [find_node_found m _ y hy] at h
  simp at h

theorem find_node_clear_some (m : Material) (f : Node)
    (h : (find_node m clear_marker_data).1 = some f) :
    m.nodes.find? (node_matches clear_marker_data) = some f := by
  unfold find_node at h
  split at h
  · simp at h
  · split at h
    next n heq =>
      simp at h
      rw [heq, h]
    next heq =>
      simp [clear_marker_data, truthyStr, markerKey] at h

theorem clear_marker_all_clear (m : Material)
    (hle : (m.nodes.filter marked_node).length ≤ 1) :
    ∀ x ∈ (clear_marker m).nodes, marked_node x = false := by
  unfold clear_marker
  cases hf : (find_node m clear_marker_data).1 with
  | none =>
    exact fun x hx => find_node_clear_none m hf x hx
  | some f =>
    intro x hx
    simp only [List.mem_map] at hx
    obtain ⟨n, hn, rfl⟩ := hx
    rw [marked_clearIf]
    cases hid : n.id == f.id with
    | true => simp
    | false =>
      simp only [Bool.not_false, Bool.true_and]
      by_contra hmn
      rw [Bool.not_eq_false] at hmn
      have hfind := find_node_clear_some m f hf
      have hfm : f ∈ m.nodes := List.mem_of_find?_eq_some hfind
      have hfmk : marked_node f = true := by
        have := List.find?_some hfind
        rwa [node_matches_clear] at this
      have h1 : n ∈ m.nodes.filter marked_node := List.mem_filter.mpr ⟨hn, hmn⟩
      have h2 : f ∈ m.nodes.filter marked_node := List.mem_filter.mpr ⟨hfm, hfmk⟩
      have : n = f := eq_of_mem_length_le_one hle h1 h2
      rw [this] at hid
      simp at hid

/-- C7 counterexample: with two marker-carrying nodes in one material, a
toRealShading call whose connect step succeeds clears only the first
marker; the second node still carries the marker with value True
afterwards, contradicting "no node carries the marker". -/
theorem c7_two_markers_counterexample :
    (connectMats c7Obj.materials real_node_a_data output_node_b_data).1 = true ∧
    ((switch_real_obj c7Obj).materials.map (fun m => m.nodes.map marked_node)) = [[false, true, false]] := by
  constructor <;> decide

/-- C7 (amended): after a toRealShading call whose connect step
succeeds, on an object each of whose materials carried at most one
marker-bearing node, no node of any material carries the backup marker
with value True any more (the first marker per material is cleared, and
it was the only one). -/
theorem c7_marker_cleared_unique (obj : Obj) (hm : obj.type = "MESH")
    (hle : ∀ m ∈ obj.materials, (m.nodes.filter marked_node).length ≤ 1)
    (hok : (connectMats obj.materials real_node_a_data output_node_b_data).1 = true) :
    ∀ m2 ∈ (switch_real_obj obj).materials, ∀ n ∈ m2.nodes, marked_node n = false := by
  unfold switch_real_obj
  have hmesh : (!(obj.type == "MESH")) = false := by rw [hm]; simp
  simp only [hmesh, Bool.false_eq_true, if_false]
  cases hemp : obj.materials.isEmpty with
  | true =>
    simp only [hemp, if_true]
    intro m2 hm2
    rw [List.isEmpty_iff] at hemp
    rw [hemp] at hm2
    simp at hm2
  | false =>
    simp only [hemp, Bool.false_eq_true, if_false]
    have hflag : (connect_nodes obj real_node_a_data output_node_b_data).1 = true := hok
    simp only [hflag, Bool.not_true, Bool.false_eq_true, if_false]
    intro m2 hm2
    simp only [List.mem_map] at hm2
    obtain ⟨m1, hm1, rfl⟩ := hm2
    have hmap := connectMats_true_map obj.materials real_node_a_data output_node_b_data hok
    have hm1' : m1 ∈ obj.materials.map
        (fun m => (connect_step m real_node_a_data output_node_b_data).2) := by
      have e : (connect_nodes obj real_node_a_data output_node_b_data).2.materials =
          (connectMats obj.materials real_node_a_data output_node_b_data).2 := rfl
      rw [e, hmap] at hm1
      exact hm1
    simp only [List.mem_map] at hm1'
    obtain ⟨m0, hm0, rfl⟩ := hm1'
    apply clear_marker_all_clear
    obtain ⟨tail, ht, hp⟩ := connect_step_nodes_suffix m0 real_node_a_data output_node_b_data rfl
    rw [ht, List.filter_append]
    have htail : tail.filter marked_node = [] := by
      rw [List.filter_eq_nil_iff]
      intro x hx
      simp [props_nil_unmarked x (hp x hx)]
    rw [htail, List.append_nil]
    exact hle m0 hm0

/-- C7 witness: with a single marked node, the marker is gone after the
switch (checked on the first node of the only material). -/
theorem c7_marker_cleared_unique_witness :
    marked_node (((switch_real_obj c7wObj).materials.headD default).nodes.headD default) = false :=
  c7_marker_cleared_unique c7wObj rfl (by decide) (by decide)
    ((switch_real_obj c7wObj).materials.headD default) (by decide)
    (((switch_real_obj c7wObj).materials.headD default).nodes.headD default) (by decide)

theorem filter_of_filter_not {α : Type} (l : List α) (p : α → Bool) :
    (l.filter (fun x => !(p x))).filter p = [] := by
  induction l with
  | nil => rfl
  | cons a t ih => cases h : p a <;> simp [List.filter_cons, h, ih]

theorem connect_step_nodes_of_bfound (m : Material) (a b : SearchNodeData) (q : Node)
    (ha : a.create_if_not_found = false)
    (hb : m.nodes.find? (node_matches b) = some q) :
    ((connect_step m a b).2).nodes = m.nodes := by
  have h1 : (find_node { m with use_nodes := true } a).2 = { m with use_nodes := true } :=
    find_node_no_create _ _ ha
  have h2 : find_node { m with use_nodes := true } b = (some q, { m with use_nodes := true }) :=
    find_node_found _ _ _ hb
  unfold connect_step
  simp only [h1, h2]
  cases hx : (find_node { m with use_nodes := true } a).1 <;> simp [hx, links_new]

theorem real_restore_core (m2 : Material) (o q : Node)
    (hmk : m2.nodes.find? marked_node = some o)
    (hout : m2.nodes.find? (fun n => n.type == "OUTPUT_MATERIAL") = some q) :
    (connect_step m2 real_node_a_data output_node_b_data).1 = true ∧
    surface_link (clear_marker (connect_step m2 real_node_a_data output_node_b_data).2) =
      some (Link.mk o.id 0 q.id 0) := by
  have hfa : m2.nodes.find? (node_matches real_node_a_data) = some o := by
    rw [find?_congr_on m2.nodes _ _ (fun x _ => node_matches_real_a x)]
    exact hmk
  have hfb : m2.nodes.find? (node_matches output_node_b_data) = some q := by
    rw [find?_congr_on m2.nodes _ _ (fun x _ => node_matches_output_b x)]
    exact hout
  have h1 : find_node { m2 with use_nodes := true } real_node_a_data =
      (some o, { m2 with use_nodes := true }) := find_node_found _ _ _ hfa
  have h2 : find_node { m2 with use_nodes := true } output_node_b_data =
      (some q, { m2 with use_nodes := true }) := find_node_found _ _ _ hfb
  have hstep : connect_step m2 real_node_a_data output_node_b_data =
      (true, links_new { m2 with use_nodes := true } o.id 0 q.id 0) := by
    unfold connect_step
    simp only [h1, h2]
    rfl
  rw [hstep]
  refine ⟨rfl, ?_⟩
  set m4 : Material := links_new { m2 with use_nodes := true } o.id 0 q.id 0 with hm4
  have hm4nodes : m4.nodes = m2.nodes := rfl
  have hclr : clear_marker m4 = { m4 with nodes := m4.nodes.map (clearIf o.id) } := by
    unfold clear_marker
    have hfc : m4.nodes.find? (node_matches clear_marker_data) = some o := by
      rw [find?_congr_on m4.nodes _ _ (fun x _ => node_matches_clear x), hm4nodes]
      exact hmk
    rw [find_node_found m4 _ o hfc]
  rw [hclr]
  unfold surface_link first_output
  have hfo : (m4.nodes.map (clearIf o.id)).find? (fun n => n.type == "OUTPUT_MATERIAL") =
      some (clearIf o.id q) := by
    rw [List.find?_map]
    have : m4.nodes.find? (fun n => (clearIf o.id n).type == "OUTPUT_MATERIAL") = some q := by
      rw [find?_congr_on m4.nodes _ _ (fun x _ => by rw [clearIf_type]), hm4nodes]
      exact hout
    rw [Function.comp_def, this]
    rfl
  simp only [hfo]
  have hqid : (clearIf o.id q).id = q.id := clearIf_id o.id q
  simp only [hqid]
  have hlinks : m4.links =
      Link.mk o.id 0 q.id 0 ::
        ({ m2 with use_nodes := true } : Material).links.filter
          (fun l => !(l.toNode == q.id && l.toSocket == 0)) := rfl
  rw [hlinks]
  rw [List.filter_cons]
  simp only [beq_self_eq_true, Bool.and_self, if_true]
  rw [filter_of_filter_not]
  rfl

theorem snap_eq_map_markIf (m : Material) (out : Node) (l : Link)
    (hout0 : m.nodes.find? (fun n => n.type == "OUTPUT_MATERIAL") = some out)
    (hsl : (m.links.filter (fun lk => lk.toNode == out.id && lk.toSocket == 0)).head? = some l) :
    store_original_marker m = { m with nodes := m.nodes.map (markIf l.fromNode) } := by
  unfold store_original_marker
  have hfn : find_node m { type := some "OUTPUT_MATERIAL" } = (some out, m) :=
    find_node_found _ _ _
      (by rw [find?_congr_on m.nodes _ _ (fun x _ => node_matches_output_type x)]; exact hout0)
  rw [hfn]
  simp [hsl]

theorem find?_type_map_markIf (ns : List Node) (tid : Nat) (out : Node)
    (hout0 : ns.find? (fun n => n.type == "OUTPUT_MATERIAL") = some out) :
    (ns.map (markIf tid)).find? (fun n => n.type == "OUTPUT_MATERIAL") = some (markIf tid out) := by
  rw [List.find?_map]
  have : ns.find? (fun n => (markIf tid n).type == "OUTPUT_MATERIAL") = some out := by
    rw [find?_congr_on ns _ _ (fun x _ => by rw [markIf_type])]
    exact hout0
  rw [Function.comp_def, this]
  rfl

theorem find?_marked_map_markIf (ns : List Node) (tid : Nat) (onode : Node)
    (hunm : ∀ n ∈ ns, marked_node n = false)
    (horig : ns.find? (fun n => n.id == tid) = some onode) :
    (ns.map (markIf tid)).find? marked_node = some (markIf tid onode) := by
  rw [List.find?_map]
  have : ns.find? (fun n => marked_node (markIf tid n)) = some onode := by
    rw [find?_congr_on ns _ _ (fun x hx => by rw [marked_markIf, hunm x hx, Bool.or_false])]
    exact horig
  rw [Function.comp_def, this]
  rfl

theorem c1_mat_core (m : Material) (out : Node) (l : Link) (onode : Node)
    (hunm : ∀ n ∈ m.nodes, marked_node n = false)
    (hout0 : m.nodes.find? (fun n => n.type == "OUTPUT_MATERIAL") = some out)
    (hsl : (m.links.filter (fun lk => lk.toNode == out.id && lk.toSocket == 0)).head? = some l)
    (horig : m.nodes.find? (fun n => n.id == l.fromNode) = some onode)
    (m2 : Material)
    (hm2 : m2 = (connect_step (store_original_marker m) baked_node_a_data output_node_b_data).2 ∨
           m2 = store_original_marker m) :
    (connect_step m2 real_node_a_data output_node_b_data).1 = true ∧
    surface_link (clear_marker (connect_step m2 real_node_a_data output_node_b_data).2) =
      some (Link.mk l.fromNode 0 out.id 0) := by
  have hsnap := snap_eq_map_markIf m out l hout0 hsl
  have hsnapnodes : (store_original_marker m).nodes = m.nodes.map (markIf l.fromNode) := by
    rw [hsnap]
  have houtMap : (store_original_marker m).nodes.find? (fun n => n.type == "OUTPUT_MATERIAL") =
      some (markIf l.fromNode out) := by
    rw [hsnapnodes]
    exact find?_type_map_markIf m.nodes l.fromNode out hout0
  have hnodes : m2.nodes = m.nodes.map (markIf l.fromNode) := by
    cases hm2 with
    | inr h => rw [h, hsnapnodes]
    | inl h =>
      rw [h]
      rw [connect_step_nodes_of_bfound (store_original_marker m) baked_node_a_data
            output_node_b_data (markIf l.fromNode out) rfl
            (by rw [find?_congr_on _ _ _ (fun x _ => node_matches_output_b x)]; exact houtMap)]
      exact hsnapnodes
  have hmk : m2.nodes.find? marked_node = some (markIf l.fromNode onode) := by
    rw [hnodes]
    exact find?_marked_map_markIf m.nodes l.fromNode onode hunm horig
  have hout2 : m2.nodes.find? (fun n => n.type == "OUTPUT_MATERIAL") =
      some (markIf l.fromNode out) := by
    rw [hnodes]
    exact find?_type_map_markIf m.nodes l.fromNode out hout0
  have hcore := real_restore_core m2 (markIf l.fromNode onode) (markIf l.fromNode out) hmk hout2
  have hoid : (markIf l.fromNode onode).id = l.fromNode := by
    rw [markIf_id]
    have := List.find?_some horig
    simpa using this
  have hqid : (markIf l.fromNode out).id = out.id := markIf_id _ _
  rw [hoid, hqid] at hcore
  exact hcore


theorem switch_real_obj_of_success (o : Obj) (hm : o.type = "MESH")
    (hne : o.materials.isEmpty = false)
    (hok : (connectMats o.materials real_node_a_data output_node_b_data).1 = true) :
    switch_real_obj o =
      { o with materials := ((o.materials.map (fun m => (connect_step m real_node_a_data output_node_b_data).2)).map clear_marker) } := by
  unfold switch_real_obj
  have hmesh : (!(o.type == "MESH")) = false := by rw [hm]; simp
  simp only [hmesh, Bool.false_eq_true, if_false, hne]
  have h2 := connectMats_true_map o.materials real_node_a_data output_node_b_data hok
  have hflag : (connect_nodes o real_node_a_data output_node_b_data).1 = true := hok
  simp only [hflag, Bool.not_true, Bool.false_eq_true, if_false]
  show { o with materials :=
      ((connectMats o.materials real_node_a_data output_node_b_data).2).map clear_marker } = _
  rw [h2]

theorem switch_baked_obj_eq (o : Obj) (hm : o.type = "MESH")
    (hne : o.materials.isEmpty = false) :
    switch_baked_obj o =
      { o with materials :=
          (connectMats (o.materials.map store_original_marker)
            baked_node_a_data output_node_b_data).2 } := by
  unfold switch_baked_obj
  have hmesh : (!(o.type == "MESH")) = false := by rw [hm]; simp
  simp only [hmesh, Bool.false_eq_true, if_false, hne]
  rfl

/-- C1 (amended): for an object whose materials all start in REAL
shading — marker-free, with a first material-output node whose Surface
input (socket 0) is fed by a link from an existing node — toBakedShading
followed by toRealShading reconnects, in every material, the exact node
that fed the Surface input before, but always from that node's output
socket 0: the backup marker records only the node, not the output
socket, so a link leaving a nonzero output socket is not restored
exactly. -/
theorem c1_round_trip_restores_node (obj : Obj) (hm : obj.type = "MESH")
    (hr : ∀ m ∈ obj.materials,
      (∀ n ∈ m.nodes, marked_node n = false) ∧
      ∃ out l onode,
        m.nodes.find? (fun n => n.type == "OUTPUT_MATERIAL") = some out ∧
        (m.links.filter (fun lk => lk.toNode == out.id && lk.toSocket == 0)).head? = some l ∧
        m.nodes.find? (fun n => n.id == l.fromNode) = some onode) :
    (switch_real_obj (switch_baked_obj obj)).materials.length = obj.materials.length ∧
    ∀ i (hi : i < obj.materials.length)
      (hi2 : i < (switch_real_obj (switch_baked_obj obj)).materials.length)
      (out : Node) (l : Link),
      (obj.materials[i]).nodes.find? (fun n => n.type == "OUTPUT_MATERIAL") = some out →
      ((obj.materials[i]).links.filter (fun lk => lk.toNode == out.id && lk.toSocket == 0)).head? = some l →
      surface_link ((switch_real_obj (switch_baked_obj obj)).materials[i]) =
        some (Link.mk l.fromNode 0 out.id 0) := by
  have hmesh : (!(obj.type == "MESH")) = false := by rw [hm]; simp
  cases hemp : obj.materials.isEmpty with
  | true =>
    have hnil : obj.materials = [] := List.isEmpty_iff.mp hemp
    have hb : switch_baked_obj obj = obj := by
      unfold switch_baked_obj
      simp only [hmesh, Bool.false_eq_true, if_false, hemp, if_true]
    have hrw : switch_real_obj obj = obj := by
      unfold switch_real_obj
      simp only [hmesh, Bool.false_eq_true, if_false, hemp, if_true]
    rw [hb, hrw]
    refine ⟨rfl, ?_⟩
    intro i hi
    rw [hnil] at hi
    simp at hi
  | false =>
    have hb := switch_baked_obj_eq obj hm hemp
    have len1 : ((connectMats (obj.materials.map store_original_marker)
        baked_node_a_data output_node_b_data).2).length = obj.materials.length := by
      rw [connectMats_length]
      simp
    have hcase : ∀ i (hi : i < obj.materials.length)
        (hi1 : i < ((connectMats (obj.materials.map store_original_marker)
          baked_node_a_data output_node_b_data).2).length),
        ((connectMats (obj.materials.map store_original_marker)
          baked_node_a_data output_node_b_data).2)[i] =
          (connect_step (store_original_marker (obj.materials[i]))
            baked_node_a_data output_node_b_data).2 ∨
        ((connectMats (obj.materials.map store_original_marker)
          baked_node_a_data output_node_b_data).2)[i] =
          store_original_marker (obj.materials[i]) := by
      intro i hi hi1
      have := connectMats_getElem_cases (obj.materials.map store_original_marker)
        baked_node_a_data output_node_b_data i (by simpa using hi) hi1
      simpa [List.getElem_map] using this
    have hallok : ∀ m2 ∈ (connectMats (obj.materials.map store_original_marker)
        baked_node_a_data output_node_b_data).2,
        (connect_step m2 real_node_a_data output_node_b_data).1 = true := by
      intro m2 hm2
      obtain ⟨i, hi1, hieq⟩ := List.mem_iff_getElem.mp hm2
      have hi : i < obj.materials.length := by rw [← len1]; exact hi1
      obtain ⟨hunm, out, l, onode, hout0, hsl, horig⟩ :=
        hr (obj.materials[i]) (List.getElem_mem hi)
      rw [← hieq]
      exact (c1_mat_core _ out l onode hunm hout0 hsl horig _ (hcase i hi hi1)).1
    have hok1 := connectMats_of_all_true _ real_node_a_data output_node_b_data hallok
    have hne1 : ((connectMats (obj.materials.map store_original_marker)
        baked_node_a_data output_node_b_data).2).isEmpty = false := by
      cases hl : (connectMats (obj.materials.map store_original_marker)
          baked_node_a_data output_node_b_data).2 with
      | nil =>
        rw [hl] at len1
        have h0 : obj.materials = [] := List.length_eq_zero.mp len1.symm
        rw [List.isEmpty_iff.mpr h0] at hemp
        cases hemp
      | cons x xs => simp [hl]
    have hrw : switch_real_obj (switch_baked_obj obj) =
        { obj with materials :=
            ((((connectMats (obj.materials.map store_original_marker)
                baked_node_a_data output_node_b_data).2).map
              (fun m => (connect_step m real_node_a_data output_node_b_data).2)).map clear_marker) } := by
      rw [hb]
      rw [switch_real_obj_of_success
            { obj with materials :=
                (connectMats (obj.materials.map store_original_marker)
                  baked_node_a_data output_node_b_data).2 }
            hm hne1
            (show (connectMats ((connectMats (obj.materials.map store_original_marker)
                baked_node_a_data output_node_b_data).2)
                real_node_a_data output_node_b_data).1 = true by rw [hok1])]
    rw [hrw]
    refine ⟨by simp [len1], ?_⟩
    intro i hi hi2 out l hout0 hsl
    obtain ⟨hunm, out', l', onode, hout0', hsl', horig⟩ :=
      hr (obj.materials[i]) (List.getElem_mem hi)
    have hout_eq : out' = out := Option.some_inj.mp (hout0'.symm.trans hout0)
    rw [hout_eq] at hsl' hout0'
    have hl_eq : l' = l := Option.some_inj.mp (hsl'.symm.trans hsl)
    rw [hl_eq] at horig
    have hi1 : i < ((connectMats (obj.materials.map store_original_marker)
        baked_node_a_data output_node_b_data).2).length := by
      rw [len1]; exact hi
    have hgoal :
        ({ obj with materials :=
            ((((connectMats (obj.materials.map store_original_marker)
                baked_node_a_data output_node_b_data).2).map
              (fun m => (connect_step m real_node_a_data output_node_b_data).2)).map clear_marker) } : Obj).materials[i] =
          clear_marker (connect_step
            (((connectMats (obj.materials.map store_original_marker)
              baked_node_a_data output_node_b_data).2)[i])
            real_node_a_data output_node_b_data).2 := by
      simp [List.getElem_map]
    rw [hgoal]
    exact (c1_mat_core (obj.materials[i]) out l onode hunm hout0' hsl horig _ (hcase i hi hi1)).2

/-- C1 counterexample: a material starting in REAL shading whose shader
feeds the output from its output socket 1.  After toBakedShading then
toRealShading the Surface input is fed by the same node but from output
socket 0, so the link is not restored to the exact node AND exact
output socket the claim demands. -/
theorem c1_socket_counterexample :
    surface_link c1Mat = some (Link.mk 1 1 0 0) ∧
    surface_link ((switch_real_obj (switch_baked_obj c1Obj)).materials.headD default) =
      some (Link.mk 1 0 0 0) ∧
    Link.mk 1 0 0 0 ≠ Link.mk 1 1 0 0 := by
  refine ⟨by decide, by decide, by decide⟩

/-- C1 witness: with the original link leaving output socket 0, the
round trip restores the Surface link exactly. -/
theorem c1_round_trip_restores_node_witness :
    surface_link ((switch_real_obj (switch_baked_obj c1wObj)).materials.headD default) =
      some (Link.mk 1 0 0 0) := by
  have h := (c1_round_trip_restores_node c1wObj rfl
    (by
      intro m hm
      have hmm : m = c1wMat := by
        have e : c1wObj.materials = [c1wMat] := rfl
        rw [e, List.mem_singleton] at hm
        exact hm
      subst hmm
      exact ⟨by decide, exOut, Link.mk 1 0 0 0, exShader, by decide, by decide, by decide⟩)).2
    0 (by decide) (by decide) exOut (Link.mk 1 0 0 0) (by decide) (by decide)
  exact h

theorem find?_map_of_pres (ns : List Node) (f : Node → Node) (p : Node → Bool)
    (hpres : ∀ n, p (f n) = p n) (x : Node) (h : ns.find? p = some x) :
    (ns.map f).find? p = some (f x) := by
  rw [List.find?_map]
  have : ns.find? (fun n => p (f n)) = some x := by
    rw [find?_congr_on ns _ _ (fun n _ => hpres n)]
    exact h
  rw [Function.comp_def, this]
  rfl

theorem baked_step_of_found (ms : Material) (bb oo : Node)
    (hbb : ms.nodes.find? (fun n => n.name == "BakeImage") = some bb)
    (hoo : ms.nodes.find? (fun n => n.type == "OUTPUT_MATERIAL") = some oo) :
    connect_step ms baked_node_a_data output_node_b_data =
      (true, links_new { ms with use_nodes := true } bb.id 0 oo.id 0) := by
  have hfa : ms.nodes.find? (node_matches baked_node_a_data) = some bb := by
    rw [find?_congr_on ms.nodes _ _ (fun x _ => node_matches_baked_a x)]
    exact hbb
  have hfb : ms.nodes.find? (node_matches output_node_b_data) = some oo := by
    rw [find?_congr_on ms.nodes _ _ (fun x _ => node_matches_output_b x)]
    exact hoo
  unfold connect_step
  simp only [find_node_found { ms with use_nodes := true } _ _ hfa,
             find_node_found { ms with use_nodes := true } _ _ hfb]
  rfl

theorem find?_marked_double_map (ns : List Node) (tid bid : Nat) (o : Node)
    (hunm : ∀ n ∈ ns, marked_node n = false)
    (hfirst : ns.find? (fun n => n.id == tid || n.id == bid) = some o) :
    ((ns.map (markIf tid)).map (markIf bid)).find? marked_node =
      some (markIf bid (markIf tid o)) := by
  rw [List.find?_map, List.find?_map]
  have hcongr : ns.find? ((marked_node ∘ markIf bid) ∘ markIf tid) = some o := by
    have hfun : ∀ n ∈ ns, ((marked_node ∘ markIf bid) ∘ markIf tid) n =
        (n.id == tid || n.id == bid) := by
      intro n hn
      show marked_node (markIf bid (markIf tid n)) = (n.id == tid || n.id == bid)
      rw [marked_markIf, marked_markIf, markIf_id, hunm n hn, Bool.or_false, Bool.or_comm]
    rw [find?_congr_on ns _ _ hfun]
    exact hfirst
  rw [hcongr]
  rfl

theorem c2_mat_core (m : Material) (out b o : Node) (l : Link)
    (hunm : ∀ n ∈ m.nodes, marked_node n = false)
    (hout0 : m.nodes.find? (fun n => n.type == "OUTPUT_MATERIAL") = some out)
    (hsl : (m.links.filter (fun lk => lk.toNode == out.id && lk.toSocket == 0)).head? = some l)
    (hbake : m.nodes.find? (fun n => n.name == "BakeImage") = some b)
    (hfirst : m.nodes.find? (fun n => n.id == l.fromNode || n.id == b.id) = some o)
    (ho : o.id = l.fromNode) :
    (connect_step (store_original_marker m) baked_node_a_data output_node_b_data).1 = true ∧
    (connect_step (store_original_marker
        ((connect_step (store_original_marker m) baked_node_a_data output_node_b_data).2))
        baked_node_a_data output_node_b_data).1 = true ∧
    (connect_step ((connect_step (store_original_marker
        ((connect_step (store_original_marker m) baked_node_a_data output_node_b_data).2))
        baked_node_a_data output_node_b_data).2) real_node_a_data output_node_b_data).1 = true ∧
    surface_link (clear_marker (connect_step ((connect_step (store_original_marker
        ((connect_step (store_original_marker m) baked_node_a_data output_node_b_data).2))
        baked_node_a_data output_node_b_data).2) real_node_a_data output_node_b_data).2) =
      some (Link.mk l.fromNode 0 out.id 0) := by
  have hsnap := snap_eq_map_markIf m out l hout0 hsl
  have hbid : (markIf l.fromNode b).id = b.id := markIf_id _ _
  have houtid : (markIf l.fromNode out).id = out.id := markIf_id _ _
  have hb1 : (store_original_marker m).nodes.find? (fun n => n.name == "BakeImage") =
      some (markIf l.fromNode b) := by
    rw [hsnap]
    exact find?_map_of_pres m.nodes _ _ (fun n => by rw [markIf_name]) b hbake
  have ho1 : (store_original_marker m).nodes.find? (fun n => n.type == "OUTPUT_MATERIAL") =
      some (markIf l.fromNode out) := by
    rw [hsnap]
    exact find?_map_of_pres m.nodes _ _ (fun n => by rw [markIf_type]) out hout0
  have hstep1 := baked_step_of_found (store_original_marker m) _ _ hb1 ho1
  refine ⟨by rw [hstep1], ?_⟩
  have hstep1' : (connect_step (store_original_marker m) baked_node_a_data output_node_b_data).2 =
      links_new { store_original_marker m with use_nodes := true }
        (markIf l.fromNode b).id 0 (markIf l.fromNode out).id 0 := by
    rw [hstep1]
  rw [hstep1']
  have hm1nodes : (links_new { store_original_marker m with use_nodes := true }
      (markIf l.fromNode b).id 0 (markIf l.fromNode out).id 0).nodes =
      m.nodes.map (markIf l.fromNode) := by
    show (store_original_marker m).nodes = _
    rw [hsnap]
  have hm1links : (links_new { store_original_marker m with use_nodes := true }
      (markIf l.fromNode b).id 0 (markIf l.fromNode out).id 0).links =
      Link.mk b.id 0 out.id 0 ::
        m.links.filter (fun lk => !(lk.toNode == out.id && lk.toSocket == 0)) := by
    unfold links_new
    simp only [hbid, houtid]
    show Link.mk b.id 0 out.id 0 :: (store_original_marker m).links.filter
        (fun lk => !(lk.toNode == out.id && lk.toSocket == 0)) = _
    rw [hsnap]
  have hout1 : (links_new { store_original_marker m with use_nodes := true }
      (markIf l.fromNode b).id 0 (markIf l.fromNode out).id 0).nodes.find?
        (fun n => n.type == "OUTPUT_MATERIAL") = some (markIf l.fromNode out) := by
    rw [hm1nodes]
    exact find?_map_of_pres m.nodes _ _ (fun n => by rw [markIf_type]) out hout0
  have hsl1 : ((links_new { store_original_marker m with use_nodes := true }
      (markIf l.fromNode b).id 0 (markIf l.fromNode out).id 0).links.filter
        (fun lk => lk.toNode == (markIf l.fromNode out).id && lk.toSocket == 0)).head? =
      some (Link.mk b.id 0 out.id 0) := by
    rw [hm1links, houtid]
    rw [List.filter_cons]
    simp only [beq_self_eq_true, Bool.and_self, if_true]
    rw [filter_of_filter_not]
    rfl
  have hsnap2 := snap_eq_map_markIf _ (markIf l.fromNode out) (Link.mk b.id 0 out.id 0) hout1 hsl1
  have hsnap2nodes : (store_original_marker (links_new
      { store_original_marker m with use_nodes := true }
      (markIf l.fromNode b).id 0 (markIf l.fromNode out).id 0)).nodes =
      (m.nodes.map (markIf l.fromNode)).map (markIf b.id) := by
    rw [hsnap2]
    show (links_new { store_original_marker m with use_nodes := true }
      (markIf l.fromNode b).id 0 (markIf l.fromNode out).id 0).nodes.map (markIf b.id) = _
    rw [hm1nodes]
  have hb2 : (store_original_marker (links_new
      { store_original_marker m with use_nodes := true }
      (markIf l.fromNode b).id 0 (markIf l.fromNode out).id 0)).nodes.find?
        (fun n => n.name == "BakeImage") =
      some (markIf b.id (markIf l.fromNode b)) := by
    rw [hsnap2nodes]
    exact find?_map_of_pres _ _ _ (fun n => by rw [markIf_name]) _
      (find?_map_of_pres m.nodes _ _ (fun n => by rw [markIf_name]) b hbake)
  have ho2 : (store_original_marker (links_new
      { store_original_marker m with use_nodes := true }
      (markIf l.fromNode b).id 0 (markIf l.fromNode out).id 0)).nodes.find?
        (fun n => n.type == "OUTPUT_MATERIAL") =
      some (markIf b.id (markIf l.fromNode out)) := by
    rw [hsnap2nodes]
    exact find?_map_of_pres _ _ _ (fun n => by rw [markIf_type]) _
      (find?_map_of_pres m.nodes _ _ (fun n => by rw [markIf_type]) out hout0)
  have hstep2 := baked_step_of_found _ _ _ hb2 ho2
  refine ⟨by rw [hstep2], ?_⟩
  have hstep2' : (connect_step (store_original_marker (links_new
      { store_original_marker m with use_nodes := true }
      (markIf l.fromNode b).id 0 (markIf l.fromNode out).id 0))
      baked_node_a_data output_node_b_data).2 =
      links_new { store_original_marker (links_new
          { store_original_marker m with use_nodes := true }
          (markIf l.fromNode b).id 0 (markIf l.fromNode out).id 0) with use_nodes := true }
        (markIf b.id (markIf l.fromNode b)).id 0 (markIf b.id (markIf l.fromNode out)).id 0 := by
    rw [hstep2]
  rw [hstep2']
  have hm2nodes : (links_new { store_original_marker (links_new
      { store_original_marker m with use_nodes := true }
      (markIf l.fromNode b).id 0 (markIf l.fromNode out).id 0) with use_nodes := true }
      (markIf b.id (markIf l.fromNode b)).id 0 (markIf b.id (markIf l.fromNode out)).id 0).nodes =
      (m.nodes.map (markIf l.fromNode)).map (markIf b.id) := by
    show (store_original_marker (links_new
      { store_original_marker m with use_nodes := true }
      (markIf l.fromNode b).id 0 (markIf l.fromNode out).id 0)).nodes = _
    exact hsnap2nodes
  have hmk2 : (links_new { store_original_marker (links_new
      { store_original_marker m with use_nodes := true }
      (markIf l.fromNode b).id 0 (markIf l.fromNode out).id 0) with use_nodes := true }
      (markIf b.id (markIf l.fromNode b)).id 0
      (markIf b.id (markIf l.fromNode out)).id 0).nodes.find? marked_node =
      some (markIf b.id (markIf l.fromNode o)) := by
    rw [hm2nodes]
    exact find?_marked_double_map m.nodes l.fromNode b.id o hunm hfirst
  have hout2c : (links_new { store_original_marker (links_new
      { store_original_marker m with use_nodes := true }
      (markIf l.fromNode b).id 0 (markIf l.fromNode out).id 0) with use_nodes := true }
      (markIf b.id (markIf l.fromNode b)).id 0
      (markIf b.id (markIf l.fromNode out)).id 0).nodes.find?
        (fun n => n.type == "OUTPUT_MATERIAL") =
      some (markIf b.id (markIf l.fromNode out)) := by
    rw [hm2nodes]
    exact find?_map_of_pres _ _ _ (fun n => by rw [markIf_type]) _
      (find?_map_of_pres m.nodes _ _ (fun n => by rw [markIf_type]) out hout0)
  have hcore := real_restore_core _ _ _ hmk2 hout2c
  have hoid : (markIf b.id (markIf l.fromNode o)).id = l.fromNode := by
    rw [markIf_id, markIf_id, ho]
  have hqid : (markIf b.id (markIf l.fromNode out)).id = out.id := by
    rw [markIf_id, markIf_id]
  have hmk_eq : Link.mk (markIf b.id (markIf l.fromNode o)).id 0
      (markIf b.id (markIf l.fromNode out)).id 0 = Link.mk l.fromNode 0 out.id 0 := by
    rw [hoid, hqid]
  rw [← hmk_eq]
  exact hcore

/-- C2 (amended): after two toBakedShading calls without an intervening
toRealShading, both the original surface source and the bake-image node
carry the backup marker; toRealShading reconnects the first
marker-carrying node in iteration order, so the original node is still
reconnected exactly when it precedes the bake-image node in the
material's node order (hypothesis: the first node whose id is the
original's or the bake node's is the original).  When the bake-image
node comes first, the original reference is lost, as the
counterexample shows. -/
theorem c2_double_bake_restores_when_original_first (obj : Obj) (hm : obj.type = "MESH")
    (hr : ∀ m ∈ obj.materials,
      (∀ n ∈ m.nodes, marked_node n = false) ∧
      ∃ out l b o,
        m.nodes.find? (fun n => n.type == "OUTPUT_MATERIAL") = some out ∧
        (m.links.filter (fun lk => lk.toNode == out.id && lk.toSocket == 0)).head? = some l ∧
        m.nodes.find? (fun n => n.name == "BakeImage") = some b ∧
        m.nodes.find? (fun n => n.id == l.fromNode || n.id == b.id) = some o ∧
        o.id = l.fromNode) :
    (switch_real_obj (switch_baked_obj (switch_baked_obj obj))).materials.length =
      obj.materials.length ∧
    ∀ i (hi : i < obj.materials.length)
      (hi2 : i < (switch_real_obj (switch_baked_obj (switch_baked_obj obj))).materials.length)
      (out : Node) (l : Link),
      (obj.materials[i]).nodes.find? (fun n => n.type == "OUTPUT_MATERIAL") = some out →
      ((obj.materials[i]).links.filter (fun lk => lk.toNode == out.id && lk.toSocket == 0)).head? = some l →
      surface_link ((switch_real_obj (switch_baked_obj (switch_baked_obj obj))).materials[i]) =
        some (Link.mk l.fromNode 0 out.id 0) := by
  have hmesh : (!(obj.type == "MESH")) = false := by rw [hm]; simp
  cases hemp : obj.materials.isEmpty with
  | true =>
    have hnil : obj.materials = [] := List.isEmpty_iff.mp hemp
    have hb : switch_baked_obj obj = obj := by
      unfold switch_baked_obj
      simp only [hmesh, Bool.false_eq_true, if_false, hemp, if_true]
    have hrw : switch_real_obj obj = obj := by
      unfold switch_real_obj
      simp only [hmesh, Bool.false_eq_true, if_false, hemp, if_true]
    rw [hb, hb, hrw]
    refine ⟨rfl, ?_⟩
    intro i hi
    rw [hnil] at hi
    simp at hi
  | false =>
    have hnenil : obj.materials ≠ [] := by
      intro h
      rw [List.isEmpty_iff.mpr h] at hemp
      cases hemp
    -- stage 1
    have hall1 : ∀ m' ∈ obj.materials.map store_original_marker,
        (connect_step m' baked_node_a_data output_node_b_data).1 = true := by
      intro m' hm'
      obtain ⟨m0, hm0, rfl⟩ := List.mem_map.mp hm'
      obtain ⟨hunm, out, l, b, o, hout0, hsl, hbake, hfirst, ho⟩ := hr m0 hm0
      exact (c2_mat_core m0 out b o l hunm hout0 hsl hbake hfirst ho).1
    have hflag1 : (connectMats (obj.materials.map store_original_marker)
        baked_node_a_data output_node_b_data).1 = true := by
      rw [connectMats_of_all_true _ _ _ hall1]
    have hmats1 : (connectMats (obj.materials.map store_original_marker)
        baked_node_a_data output_node_b_data).2 =
        obj.materials.map (fun m =>
          (connect_step (store_original_marker m) baked_node_a_data output_node_b_data).2) := by
      rw [connectMats_true_map _ _ _ hflag1, List.map_map]
      rfl
    have hobj1 : switch_baked_obj obj =
        { obj with materials := obj.materials.map (fun m =>
            (connect_step (store_original_marker m) baked_node_a_data output_node_b_data).2) } := by
      rw [switch_baked_obj_eq obj hm hemp, hmats1]
    -- stage 2
    have hemp1 : ((obj.materials.map (fun m =>
        (connect_step (store_original_marker m) baked_node_a_data output_node_b_data).2)).isEmpty) = false := by
      cases hcase : obj.materials.map (fun m =>
          (connect_step (store_original_marker m) baked_node_a_data output_node_b_data).2) with
      | nil => exact absurd (List.map_eq_nil_iff.mp hcase) hnenil
      | cons x xs => simp [hcase]
    have hall2 : ∀ m' ∈ (obj.materials.map (fun m =>
        (connect_step (store_original_marker m) baked_node_a_data output_node_b_data).2)).map
          store_original_marker,
        (connect_step m' baked_node_a_data output_node_b_data).1 = true := by
      intro m' hm'
      obtain ⟨m1, hm1, rfl⟩ := List.mem_map.mp hm'
      obtain ⟨m0, hm0, rfl⟩ := List.mem_map.mp hm1
      obtain ⟨hunm, out, l, b, o, hout0, hsl, hbake, hfirst, ho⟩ := hr m0 hm0
      exact (c2_mat_core m0 out b o l hunm hout0 hsl hbake hfirst ho).2.1
    have hflag2 : (connectMats ((obj.materials.map (fun m =>
        (connect_step (store_original_marker m) baked_node_a_data output_node_b_data).2)).map
          store_original_marker) baked_node_a_data output_node_b_data).1 = true := by
      rw [connectMats_of_all_true _ _ _ hall2]
    have hmats2 : (connectMats ((obj.materials.map (fun m =>
        (connect_step (store_original_marker m) baked_node_a_data output_node_b_data).2)).map
          store_original_marker) baked_node_a_data output_node_b_data).2 =
        obj.materials.map (fun m =>
          (connect_step (store_original_marker
            ((connect_step (store_original_marker m) baked_node_a_data output_node_b_data).2))
            baked_node_a_data output_node_b_data).2) := by
      rw [connectMats_true_map _ _ _ hflag2, List.map_map, List.map_map]
      rfl
    have hobj2 : switch_baked_obj (switch_baked_obj obj) =
        { obj with materials := obj.materials.map (fun m =>
            (connect_step (store_original_marker
              ((connect_step (store_original_marker m) baked_node_a_data output_node_b_data).2))
              baked_node_a_data output_node_b_data).2) } := by
      rw [hobj1]
      rw [switch_baked_obj_eq
            { obj with materials := obj.materials.map (fun m =>
                (connect_step (store_original_marker m) baked_node_a_data output_node_b_data).2) }
            hm hemp1]
      rw [show ({ obj with materials := obj.materials.map (fun m =>
            (connect_step (store_original_marker m) baked_node_a_data output_node_b_data).2) } : Obj).materials =
          obj.materials.map (fun m =>
            (connect_step (store_original_marker m) baked_node_a_data output_node_b_data).2) from rfl]
      rw [hmats2]
    -- stage 3
    have hemp2 : ((obj.materials.map (fun m =>
        (connect_step (store_original_marker
          ((connect_step (store_original_marker m) baked_node_a_data output_node_b_data).2))
          baked_node_a_data output_node_b_data).2)).isEmpty) = false := by
      cases hcase : obj.materials.map (fun m =>
          (connect_step (store_original_marker
            ((connect_step (store_original_marker m) baked_node_a_data output_node_b_data).2))
            baked_node_a_data output_node_b_data).2) with
      | nil => exact absurd (List.map_eq_nil_iff.mp hcase) hnenil
      | cons x xs => simp [hcase]
    have hall3 : ∀ m2 ∈ obj.materials.map (fun m =>
        (connect_step (store_original_marker
          ((connect_step (store_original_marker m) baked_node_a_data output_node_b_data).2))
          baked_node_a_data output_node_b_data).2),
        (connect_step m2 real_node_a_data output_node_b_data).1 = true := by
      intro m2 hm2
      obtain ⟨m0, hm0, rfl⟩ := List.mem_map.mp hm2
      obtain ⟨hunm, out, l, b, o, hout0, hsl, hbake, hfirst, ho⟩ := hr m0 hm0
      exact (c2_mat_core m0 out b o l hunm hout0 hsl hbake hfirst ho).2.2.1
    have hflag3 : (connectMats (obj.materials.map (fun m =>
        (connect_step (store_original_marker
          ((connect_step (store_original_marker m) baked_node_a_data output_node_b_data).2))
          baked_node_a_data output_node_b_data).2)) real_node_a_data output_node_b_data).1 = true := by
      rw [connectMats_of_all_true _ _ _ hall3]
    have hfinal : switch_real_obj (switch_baked_obj (switch_baked_obj obj)) =
        { obj with materials := (((obj.materials.map (fun m =>
            (connect_step (store_original_marker
              ((connect_step (store_original_marker m) baked_node_a_data output_node_b_data).2))
              baked_node_a_data output_node_b_data).2)).map
            (fun m => (connect_step m real_node_a_data output_node_b_data).2)).map clear_marker) } := by
      rw [hobj2]
      rw [switch_real_obj_of_success
            { obj with materials := obj.materials.map (fun m =>
                (connect_step (store_original_marker
                  ((connect_step (store_original_marker m) baked_node_a_data output_node_b_data).2))
                  baked_node_a_data output_node_b_data).2) }
            hm hemp2 hflag3]
    rw [hfinal]
    refine ⟨by simp, ?_⟩
    intro i hi hi2 out l hout0 hsl
    obtain ⟨hunm, out', l', b', o', hout0', hsl', hbake', hfirst', ho'⟩ :=
      hr (obj.materials[i]) (List.getElem_mem hi)
    have hout_eq : out' = out := Option.some_inj.mp (hout0'.symm.trans hout0)
    rw [hout_eq] at hsl' hout0'
    have hl_eq : l' = l := Option.some_inj.mp (hsl'.symm.trans hsl)
    rw [hl_eq] at hfirst' ho'
    have hgoal :
        ({ obj with materials := (((obj.materials.map (fun m =>
            (connect_step (store_original_marker
              ((connect_step (store_original_marker m) baked_node_a_data output_node_b_data).2))
              baked_node_a_data output_node_b_data).2)).map
            (fun m => (connect_step m real_node_a_data output_node_b_data).2)).map clear_marker) } : Obj).materials[i] =
        clear_marker (connect_step ((connect_step (store_original_marker
            ((connect_step (store_original_marker (obj.materials[i]))
              baked_node_a_data output_node_b_data).2))
            baked_node_a_data output_node_b_data).2) real_node_a_data output_node_b_data).2 := by
      simp [List.getElem_map]
    rw [hgoal]
    exact (c2_mat_core (obj.materials[i]) out b' o' l hunm hout0' hsl hbake' hfirst' ho').2.2.2

/-- C2 counterexample: with the bake-image node (id 2) preceding the
original shader (id 1) in node order, two toBakedShading calls followed
by toRealShading reconnect the bake-image node, not the node that fed
the Surface input before the first call — the original reference is
lost. -/
theorem c2_bake_node_first_counterexample :
    surface_link c2Mat = some (Link.mk 1 0 0 0) ∧
    surface_link ((switch_real_obj (switch_baked_obj (switch_baked_obj c2Obj))).materials.headD default) =
      some (Link.mk 2 0 0 0) ∧
    (2 : Nat) ≠ 1 := by
  refine ⟨by decide, by decide, by decide⟩

/-- C2 witness: with the original shader preceding the bake-image node,
the double bake followed by toRealShading still reconnects the original
node. -/
theorem c2_double_bake_restores_when_original_first_witness :
    surface_link ((switch_real_obj (switch_baked_obj (switch_baked_obj c2wObj))).materials.headD default) =
      some (Link.mk 1 0 0 0) := by
  have h := (c2_double_bake_restores_when_original_first c2wObj rfl
    (by
      intro m hm
      have hmm : m = c2wMat := by
        have e : c2wObj.materials = [c2wMat] := rfl
        rw [e, List.mem_singleton] at hm
        exact hm
      subst hmm
      exact ⟨by decide, exOut, Link.mk 1 0 0 0, exBake, exShader,
             by decide, by decide, by decide, by decide, by decide⟩)).2
    0 (by decide) (by decide) exOut (Link.mk 1 0 0 0) (by decide) (by decide)
  exact h
